import Mathlib

/-!
Shallow embedding of the host-side orchestration layer of `src/kmcuda.cpp`:
argument validation (`check_args`), device-set resolution (`setup_devices`),
the per-device memory plan built by `kmeans_cuda`, the yinyang scratch plan,
the result copy-out phase, and the index-search loops of the k-means++
branch of `kmeans_init_centroids`.

Machine integers are modelled as `Nat` (with an explicit `% 2 ^ 32` where the
source computes in `uint32_t` and overflow matters), `float`/`double`
quantities as `ℚ`, and device pointers as nullability flags.  External CUDA
calls (device count, device activation, the setup/init/refine collaborators,
memory transfers) are modelled as an explicit environment whose fields give
the outcome of each call.
-/

namespace KMCuda

/-- Result codes of the library, from `KMCUDAResult` as used in `src/kmcuda.cpp`. -/
inductive KMCUDAResult
  | success
  | invalidArguments
  | noSuchDevice
  | memoryAllocationError
  | runtimeError
  | memoryCopyError
deriving DecidableEq

/-- Embedding of `check_args` (src/kmcuda.cpp lines 15-46).  The checks appear
in the exact source order: clusters shape, features shape, samples shape,
zero device selector, device selector above `1u << devices`, null pointers,
tolerance range, yinyang range.  `deviceCount` stands for the value written
by `cudaGetDeviceCount`; the three `Null` flags stand for the three pointer
arguments being `nullptr`. -/
def check_args (tolerance yinyang_t : ℚ) (samples_size : ℕ) (features_size : ℕ)
    (clusters_size : ℕ) (device : ℕ) (deviceCount : ℕ)
    (samplesNull centroidsNull assignmentsNull : Bool) : KMCUDAResult :=
  if clusters_size < 2 ∨ clusters_size = 2 ^ 32 - 1 then .invalidArguments
  else if features_size = 0 then .invalidArguments
  else if samples_size < clusters_size then .invalidArguments
  else if device = 0 then .noSuchDevice
  else if device > 2 ^ deviceCount then .noSuchDevice
  else if samplesNull = true ∨ centroidsNull = true ∨ assignmentsNull = true then
    .invalidArguments
  else if tolerance < 0 ∨ tolerance > 1 then .invalidArguments
  else if yinyang_t < 0 ∨ yinyang_t > 1 / 2 then .invalidArguments
  else .success

/-- Loop body of `setup_devices` (src/kmcuda.cpp lines 48-61): walk the selector
bits from bit 0 upward; a device whose bit is set is kept only when its
activation (`cudaSetDevice`, modelled by `act`) succeeds.  The fuel argument
bounds the number of bits examined; the selector is a `uint32_t`, so fuel 32
is exact for any selector below `2 ^ 32`. -/
def setup_devices_aux (act : ℕ → Bool) : ℕ → ℕ → ℕ → List ℕ
  | 0, _, _ => []
  | fuel + 1, device, dev =>
    if device = 0 then []
    else
      (if device % 2 = 1 ∧ act dev = true then [dev] else []) ++
        setup_devices_aux act fuel (device / 2) (dev + 1)

/-- Embedding of `setup_devices` (src/kmcuda.cpp lines 48-61). -/
def setup_devices (device : ℕ) (act : ℕ → Bool) : List ℕ :=
  setup_devices_aux act 32 device 0

/-- Ownership tag of one per-device buffer produced by the memory planner:
a fresh allocation of the given element count (`CUMALLOC` / `CUMALLOC_ONE`),
an alias of the caller pointer (`emplace_back(ptr, true)`), or an alias of
the passed-flags yinyang buffer (the reuse branch at src/kmcuda.cpp
lines 224-228). -/
inductive BufSpec
  | owned (size : ℕ)
  | callerAlias
  | passedAlias
deriving DecidableEq

/-- Per-device buffer lists of the yinyang scratch state
(src/kmcuda.cpp lines 215-232), one list entry per participating device. -/
structure YYPlan where
  assignmentsYY : List BufSpec
  boundsYY : List BufSpec
  driftsYY : List BufSpec
  passedYY : List BufSpec
  centroidsYY : List BufSpec
deriving DecidableEq

/-- Embedding of the yinyang scratch planning (src/kmcuda.cpp lines 217-232).
Modelled from the spec: `CUMALLOC` (from the private header, not under `src/`)
performs one allocation per participating device, as the spec states
("saves one allocation per device").  The reuse comparison
`yyc_size + (clusters_size + yinyang_groups) <= samples_size` is computed by
the source in `uint32_t` arithmetic before widening, hence the `% 2 ^ 32`
on the product `yinyang_groups * features_size` and on the sum
`clusters_size + yinyang_groups`. -/
def planYY (samples_size features_size clusters_size yinyang_groups ndevs : ℕ) :
    YYPlan :=
  if 1 ≤ yinyang_groups then
    { assignmentsYY := List.replicate ndevs (BufSpec.owned clusters_size)
      boundsYY :=
        List.replicate ndevs (BufSpec.owned (samples_size * (yinyang_groups + 1)))
      driftsYY :=
        List.replicate ndevs
          (BufSpec.owned (clusters_size * features_size + clusters_size))
      passedYY := List.replicate ndevs (BufSpec.owned samples_size)
      centroidsYY :=
        if yinyang_groups * features_size % 2 ^ 32 +
            (clusters_size + yinyang_groups) % 2 ^ 32 ≤ samples_size then
          List.replicate ndevs BufSpec.passedAlias
        else
          List.replicate ndevs
            (BufSpec.owned (yinyang_groups * features_size % 2 ^ 32)) }
  else ⟨[], [], [], [], []⟩

/-- The computation `uint32_t yinyang_groups = yinyang_t * clusters_size`
(src/kmcuda.cpp line 213): float multiplication truncated toward zero,
modelled as the rational floor (exact in particular when `yinyang_t = 0`). -/
def yyGroupsOf (yinyang_t : ℚ) (clusters_size : ℕ) : ℕ :=
  (⌊yinyang_t * (clusters_size : ℚ)⌋).toNat

/-- Description of the copy-out phase (src/kmcuda.cpp lines 258-274):
`peer` is true for the `cudaMemcpyPeer` branch (`device_ptrs >= 0`) and false
for the `cudaMemcpy` device-to-host branch; `srcDev` is `devs[0]`;
`centroidFloats` and `assignmentWords` are the element counts transferred
for the centroid matrix and the assignment vector. -/
structure CopyOutSpec where
  peer : Bool
  srcDev : ℕ
  centroidFloats : ℕ
  assignmentWords : ℕ
deriving DecidableEq

/-- Everything `kmeans_cuda` decides before and after the collaborator calls:
the resolved device set, the per-device buffer plan for every logical buffer,
the yinyang scratch plan, and markers recording the `yinyang_groups` value
passed to the setup and refinement collaborators (`none` when the call is
never reached) and the copy-out transfer (`none` when no transfer happens). -/
structure Trace where
  devs : List ℕ
  samplesBufs : List BufSpec
  hostToDeviceCopies : ℕ
  centroidsBufs : List BufSpec
  assignmentsBufs : List BufSpec
  assignmentsPrevBufs : List BufSpec
  ccountsBufs : List BufSpec
  yinyangGroups : ℕ
  yy : YYPlan
  mustCopyResult : Bool
  setupCall : Option ℕ
  refineCall : Option ℕ
  copyOut : Option CopyOutSpec
deriving DecidableEq

/-- Arguments of `kmeans_cuda` (src/kmcuda.cpp lines 166-169), with the three
raw pointers replaced by their nullability flags. -/
structure Args where
  kmpp : Bool
  tolerance : ℚ
  yinyang_t : ℚ
  samples_size : ℕ
  features_size : ℕ
  clusters_size : ℕ
  seed : ℕ
  device : ℕ
  verbosity : ℤ
  device_ptrs : ℤ
  samplesNull : Bool
  centroidsNull : Bool
  assignmentsNull : Bool

/-- Outcomes of the external calls made by `kmeans_cuda`: the CUDA device
count, per-device activation success, `cudaMemGetInfo` success (used by
`print_memory_stats`), the result codes of the three collaborators, and the
success of the two copy-out transfers. -/
structure Env where
  deviceCount : ℕ
  act : ℕ → Bool
  memInfoOk : Bool
  setupResult : KMCUDAResult
  initResult : KMCUDAResult
  yyResult : KMCUDAResult
  copyCentroidsOk : Bool
  copyAssignmentsOk : Bool

/-- The `must_copy_result` flag (src/kmcuda.cpp lines 191-199): it stays true
unless some participating device equals `device_ptrs`. -/
def mustCopy (devs : List ℕ) (device_ptrs : ℤ) : Bool :=
  ! devs.any fun dev => decide ((dev : ℤ) = device_ptrs)

/-- Whether `print_memory_stats` succeeds or is skipped
(src/kmcuda.cpp lines 234-236). -/
def memOk (a : Args) (env : Env) : Bool :=
  decide (a.verbosity ≤ 1) || env.memInfoOk

/-- The buffer plan and call markers of one `kmeans_cuda` invocation that
passed argument validation and device resolution
(src/kmcuda.cpp lines 181-274).  Modelled from the spec where the private
header helper routines are concerned: `CUMALLOC` and `CUMEMCPY_H2D_ASYNC` act once per
participating device and `FOR_ALL_DEVS` iterates the device list, as the spec
states ("every participating device gets an owned allocation").  Note the
source pushes exactly one aliased entry for the samples buffer when
`device_ptrs >= 0` (line 187), outside any per-device loop. -/
def fullTrace (a : Args) (env : Env) (devs : List ℕ) : Trace :=
  { devs := devs
    samplesBufs :=
      if a.device_ptrs < 0 then
        List.replicate devs.length
          (BufSpec.owned (a.samples_size * a.features_size))
      else [BufSpec.callerAlias]
    hostToDeviceCopies := if a.device_ptrs < 0 then devs.length else 0
    centroidsBufs :=
      devs.map fun dev =>
        if (dev : ℤ) = a.device_ptrs then BufSpec.callerAlias
        else BufSpec.owned (a.clusters_size * a.features_size)
    assignmentsBufs :=
      devs.map fun dev =>
        if (dev : ℤ) = a.device_ptrs then BufSpec.callerAlias
        else BufSpec.owned a.samples_size
    assignmentsPrevBufs := List.replicate devs.length (BufSpec.owned a.samples_size)
    ccountsBufs := List.replicate devs.length (BufSpec.owned a.clusters_size)
    yinyangGroups := yyGroupsOf a.yinyang_t a.clusters_size
    yy :=
      planYY a.samples_size a.features_size a.clusters_size
        (yyGroupsOf a.yinyang_t a.clusters_size) devs.length
    mustCopyResult := mustCopy devs a.device_ptrs
    setupCall :=
      if memOk a env then some (yyGroupsOf a.yinyang_t a.clusters_size) else none
    refineCall :=
      if memOk a env ∧ env.setupResult = .success ∧ env.initResult = .success then
        some (yyGroupsOf a.yinyang_t a.clusters_size)
      else none
    copyOut :=
      if memOk a env ∧ env.setupResult = .success ∧ env.initResult = .success ∧
          env.yyResult = .success ∧ mustCopy devs a.device_ptrs = true then
        some
          { peer := decide (0 ≤ a.device_ptrs)
            srcDev := devs.headD 0
            centroidFloats := a.clusters_size * a.features_size
            assignmentWords := a.samples_size }
      else none }

/-- The result code of a `kmeans_cuda` invocation that passed argument
validation and device resolution: the first failing step wins, in source
order (memory stats, setup collaborator, centroid init, refinement, then the
two copy-out transfers, each failing with `kmcudaMemoryCopyError`). -/
def finalCode (a : Args) (env : Env) (devs : List ℕ) : KMCUDAResult :=
  if memOk a env = false then .runtimeError
  else if env.setupResult ≠ .success then env.setupResult
  else if env.initResult ≠ .success then env.initResult
  else if env.yyResult ≠ .success then env.yyResult
  else if mustCopy devs a.device_ptrs then
    if env.copyCentroidsOk = false then .memoryCopyError
    else if env.copyAssignmentsOk = false then .memoryCopyError
    else .success
  else .success

/-- Embedding of `kmeans_cuda` (src/kmcuda.cpp lines 166-277): check the
arguments, resolve the device set (failing with `kmcudaNoSuchDevice` when it
comes out empty, before any buffer is planned), then plan all buffers and run
the pipeline.  The second component is `none` exactly when the invocation
fails before memory planning. -/
def kmeans_cuda (a : Args) (env : Env) : KMCUDAResult × Option Trace :=
  if check_args a.tolerance a.yinyang_t a.samples_size a.features_size
      a.clusters_size a.device env.deviceCount a.samplesNull a.centroidsNull
      a.assignmentsNull = .success then
    if setup_devices a.device env.act = [] then (.noSuchDevice, none)
    else
      (finalCode a env (setup_devices a.device env.act),
        some (fullTrace a env (setup_devices a.device env.act)))
  else
    (check_args a.tolerance a.yinyang_t a.samples_size a.features_size
      a.clusters_size a.device env.deviceCount a.samplesNull a.centroidsNull
      a.assignmentsNull, none)

/-- Running sum of the first `k` entries of the host distance array, i.e. the
value of `dist_sum2` after summing `host_dists[0] .. host_dists[k-1]`
(both the naive loop of src/kmcuda.cpp lines 126-128 and the reduction loop
of lines 137-140 compute this in exact arithmetic). -/
def sumTo (d : ℕ → ℚ) : ℕ → ℚ
  | 0 => 0
  | k + 1 => sumTo d k + d k

/-- The forward scan loop
`for (j = ..; j < samples_size && dist_sum2 < choice_sum; j++) dist_sum2 += host_dists[j];`
(src/kmcuda.cpp lines 126-128, 132-134 and 142-144), with an explicit fuel;
the loop runs at most `n` iterations, so any fuel with `n ≤ fuel + j`
reproduces the loop exactly. -/
def fwdScan (d : ℕ → ℚ) (n : ℕ) (T : ℚ) : ℕ → ℕ → ℚ → ℕ
  | 0, j, _ => j
  | fuel + 1, j, s => if j < n ∧ s < T then fwdScan d n T fuel (j + 1) (s + d j) else j

/-- The backward scan loop
`for (j = choice_approx; j > 1 && dist_sum2 >= choice_sum; j--) dist_sum2 -= host_dists[j];`
(src/kmcuda.cpp lines 146-148).  Note the source subtracts `host_dists[j]`,
the entry at the current index, even though the running sum only ever
included entries strictly below `choice_approx`. -/
def bwdScan (d : ℕ → ℚ) (T : ℚ) : ℕ → ℕ → ℚ → ℕ
  | 0, j, _ => j
  | fuel + 1, j, s => if 1 < j ∧ T ≤ s then bwdScan d T fuel (j - 1) (s - d j) else j

/-- The naive full linear scan (src/kmcuda.cpp lines 124-129): the smallest
`j` whose running distance sum reaches `T`, found from index 0. -/
def naiveScan (d : ℕ → ℚ) (n : ℕ) (T : ℚ) : ℕ :=
  fwdScan d n T n 0 0

/-- The complete index-search policy of the k-means++ step
(src/kmcuda.cpp lines 120-150): with `choice_approx = floor(r * n)` and
`choice_sum = r * S`, run the naive scan when `choice_approx < 100`,
otherwise pre-sum up to `choice_approx` and either continue forward or scan
backward and step once forward.  The returned value is the final loop
variable `j`; the selected sample row is `j - 1`. -/
def kmppSearch (d : ℕ → ℚ) (n : ℕ) (S r : ℚ) : ℕ :=
  if (⌊r * (n : ℚ)⌋).toNat < 100 then naiveScan d n (r * S)
  else if sumTo d (⌊r * (n : ℚ)⌋).toNat < r * S then
    fwdScan d n (r * S) n (⌊r * (n : ℚ)⌋).toNat (sumTo d (⌊r * (n : ℚ)⌋).toNat)
  else
    bwdScan d (r * S) (⌊r * (n : ℚ)⌋).toNat (⌊r * (n : ℚ)⌋).toNat
      (sumTo d (⌊r * (n : ℚ)⌋).toNat) + 1

/-- Sample arguments that pass every check of `check_args`: 4 samples with one
feature, 2 clusters, device selector bit 0, host pointers. -/
def baseArgs : Args :=
  { kmpp := false, tolerance := 0, yinyang_t := 0, samples_size := 4,
    features_size := 1, clusters_size := 2, seed := 7, device := 1,
    verbosity := 0, device_ptrs := -1, samplesNull := false,
    centroidsNull := false, assignmentsNull := false }

/-- Environment in which every external call succeeds and two devices exist. -/
def baseEnv : Env :=
  { deviceCount := 2, act := fun _ => true, memInfoOk := true,
    setupResult := .success, initResult := .success, yyResult := .success,
    copyCentroidsOk := true, copyAssignmentsOk := true }

/-- Distance array refuting the claimed equivalence of the backward search:
all mass sits at indices 0 and 150. -/
def dCex : ℕ → ℚ := fun t => if t = 0 then 3 else if t = 150 then 1 else 0

/-- Arguments with a zero device selector, valid shapes and several other
violations (null pointers, out-of-range tolerance) at the same time. -/
def aC3 : Args :=
  { baseArgs with
    device := 0
    tolerance := 2
    samplesNull := true
    centroidsNull := true
    assignmentsNull := true }

/-- Arguments with a zero device selector together with a shape violation
(`clusters_size = 1`). -/
def aC3c : Args := { baseArgs with device := 0, clusters_size := 1 }

/-- Arguments selecting two devices with the input-location hint naming
device 0. -/
def aC6c : Args := { baseArgs with device := 3, device_ptrs := 0 }

/-- Arguments violating only the tolerance rule (`tolerance = 3/2`). -/
def aC7 : Args := { baseArgs with tolerance := 3 / 2 }

/-- Arguments violating the tolerance rule and the device-selector rule at
the same time. -/
def aC7c : Args := { baseArgs with tolerance := 3 / 2, device := 0 }

set_option maxRecDepth 16000

theorem fwdScan_of_le (d : ℕ → ℚ) (n : ℕ) (T : ℚ) (f j : ℕ) (s : ℚ) (h : n ≤ j) :
    fwdScan d n T f j s = j := by
  cases f with
  | zero => rfl
  | succ f =>
    rw [fwdScan, if_neg]
    rintro ⟨hlt, -⟩
    omega

theorem fwdScan_fuel (d : ℕ → ℚ) (n : ℕ) (T : ℚ) (f : ℕ) :
    ∀ g j s, n ≤ f + j → n ≤ g + j → fwdScan d n T f j s = fwdScan d n T g j s := by
  induction f with
  | zero =>
    intro g j s hf hg
    rw [fwdScan_of_le d n T 0 j s (by omega), fwdScan_of_le d n T g j s (by omega)]
  | succ f ih =>
    intro g j s hf hg
    cases g with
    | zero =>
      rw [fwdScan_of_le d n T (f + 1) j s (by omega),
        fwdScan_of_le d n T 0 j s (by omega)]
    | succ g =>
      rw [fwdScan, fwdScan]
      by_cases hc : j < n ∧ s < T
      · rw [if_pos hc, if_pos hc]
        exact ih g (j + 1) (s + d j) (by omega) (by omega)
      · rw [if_neg hc, if_neg hc]

theorem fwdScan_step (d : ℕ → ℚ) (n : ℕ) (T : ℚ) (f j : ℕ) (s : ℚ)
    (hj : j < n) (hs : s < T) (hf : n ≤ f + j) :
    fwdScan d n T f j s = fwdScan d n T f (j + 1) (s + d j) := by
  cases f with
  | zero => exact absurd hj (by omega)
  | succ f =>
    rw [fwdScan, if_pos ⟨hj, hs⟩]
    exact fwdScan_fuel d n T f (f + 1) (j + 1) (s + d j) (by omega) (by omega)

theorem sumTo_mono (d : ℕ → ℚ) :
    ∀ b a, a ≤ b → (∀ t, t < b → 0 ≤ d t) → sumTo d a ≤ sumTo d b := by
  intro b
  induction b with
  | zero =>
    intro a ha _
    obtain rfl : a = 0 := by omega
    exact le_rfl
  | succ b ih =>
    intro a ha hd
    by_cases hab : a = b + 1
    · subst hab
      exact le_rfl
    · have h1 : a ≤ b := by omega
      have h2 := ih a h1 (fun t ht => hd t (by omega))
      have h3 : 0 ≤ d b := hd b (by omega)
      have h4 : sumTo d (b + 1) = sumTo d b + d b := rfl
      linarith

theorem fwdScan_chain (d : ℕ → ℚ) (n : ℕ) (T : ℚ) (hd : ∀ t, t < n → 0 ≤ d t) :
    ∀ a, a ≤ n → sumTo d a < T → fwdScan d n T n 0 0 = fwdScan d n T n a (sumTo d a) := by
  intro a
  induction a with
  | zero => intro _ _; rfl
  | succ a ih =>
    intro ha hT
    have han : a < n := by omega
    have hmono : sumTo d a ≤ sumTo d (a + 1) :=
      sumTo_mono d (a + 1) a (by omega) (fun t ht => hd t (by omega))
    have hsa : sumTo d a < T := lt_of_le_of_lt hmono hT
    rw [ih (by omega) hsa]
    rw [fwdScan_step d n T n a (sumTo d a) han hsa (by omega)]
    rfl

/-- C1 (amended): the index-search policy of §4.3 step 3 agrees with the naive
full linear scan whenever it takes the linear branch (`approx < 100`) or the
forward-continuation branch (running sum up to `approx` still below `T`),
for any nonnegative distance array and draw `r` in `[0,1)`. -/
theorem kmpp_search_forward_agrees (d : ℕ → ℚ) (n : ℕ) (S r : ℚ)
    (hd : ∀ t, t < n → 0 ≤ d t) (_hr0 : 0 ≤ r) (hr1 : r < 1)
    (hcase : (⌊r * (n : ℚ)⌋).toNat < 100 ∨
      sumTo d (⌊r * (n : ℚ)⌋).toNat < r * S) :
    kmppSearch d n S r = naiveScan d n (r * S) := by
  by_cases h1 : (⌊r * (n : ℚ)⌋).toNat < 100
  · rw [kmppSearch, if_pos h1]
  · have hs : sumTo d (⌊r * (n : ℚ)⌋).toNat < r * S := hcase.resolve_left h1
    rw [kmppSearch, if_neg h1, if_pos hs, naiveScan]
    have hn : 0 < n := by
      by_contra hcon
      obtain rfl : n = 0 := by omega
      apply h1
      norm_num
    have happrox : (⌊r * (n : ℚ)⌋).toNat ≤ n := by
      have hq : (0 : ℚ) < (n : ℚ) := by exact_mod_cast hn
      have h2 : r * (n : ℚ) < (n : ℚ) := by nlinarith
      have h3 : ⌊r * (n : ℚ)⌋ < (n : ℤ) := by
        rw [Int.floor_lt]
        exact_mod_cast h2
      omega
    exact (fwdScan_chain d n (r * S) hd _ happrox hs).symm

/-- C1 witness: on five equal distances with `r = 1/2` the policy takes the
linear branch and agrees with the naive scan. -/
theorem kmpp_search_forward_agrees_w :
    (0 : ℚ) ≤ 1 / 2 ∧ (1 / 2 : ℚ) < 1 ∧
      kmppSearch (fun _ => 1) 5 5 (1 / 2) = naiveScan (fun _ => 1) 5 (1 / 2 * 5) :=
  ⟨by norm_num, by norm_num,
    kmpp_search_forward_agrees (fun _ => 1) 5 5 (1 / 2) (fun t _ => by norm_num)
      (by norm_num) (by norm_num)
      (Or.inl (by norm_num))⟩

theorem dCex_approx : (⌊(3 / 4 : ℚ) * ((200 : ℕ) : ℚ)⌋).toNat = 150 := by
  norm_num
  decide

theorem dCex_sum : sumTo dCex 150 = 3 := by
  norm_num [sumTo, dCex]

set_option maxHeartbeats 2000000 in
/-- C1 counterexample: with 200 samples, distances 3 at index 0 and 1 at
index 150, total 4 and draw `r = 3/4` (so `approx = 150`, `T = 3`), the
backward branch returns loop variable 150 (sample index 149) while the naive
scan returns loop variable 1 (sample index 0). -/
theorem kmpp_search_backward_cex :
    kmppSearch dCex 200 4 (3 / 4) = 150 ∧ naiveScan dCex 200 (3 / 4 * 4) = 1 := by
  constructor
  · rw [kmppSearch, dCex_approx, dCex_sum]
    rw [show (3 : ℚ) / 4 * 4 = 3 from by norm_num]
    rw [if_neg (by norm_num), if_neg (by norm_num)]
    norm_num [bwdScan, dCex]
  · rw [naiveScan, show (3 : ℚ) / 4 * 4 = 3 from by norm_num]
    norm_num [fwdScan, dCex]

/-- C4: when the total distance is 0 every prefix sum is 0, so `T = 0` and
the naive loop exits immediately with `j = 0`: the assertion `j > 0` of
src/kmcuda.cpp line 152 is violated and the copied row would be
`(uint32_t)(0 - 1)`, not row 0 as the spec claims. -/
theorem kmpp_zero_total_breaks_assert :
    sumTo (fun _ => (0 : ℚ)) 5 = 0 ∧
      kmppSearch (fun _ => (0 : ℚ)) 5 (sumTo (fun _ => 0) 5) (1 / 2) = 0 := by
  constructor
  · norm_num [sumTo]
  · rw [kmppSearch,
      show (⌊(1 / 2 : ℚ) * ((5 : ℕ) : ℚ)⌋).toNat = 2 from by norm_num; decide,
      if_pos (by norm_num), naiveScan]
    norm_num [fwdScan, sumTo]

/-- C5: with strictly positive total distance 3 but draw `r = 0`, the target
`T = 0` makes the naive loop exit immediately with `j = 0`, refuting the
claimed post-search invariant `j ≥ 1` (the assertion of src/kmcuda.cpp
line 152). -/
theorem kmpp_zero_draw_breaks_assert :
    (0 : ℚ) < sumTo (fun _ => (1 : ℚ)) 3 ∧
      kmppSearch (fun _ => (1 : ℚ)) 3 (sumTo (fun _ => 1) 3) 0 = 0 := by
  constructor
  · norm_num [sumTo]
  · rw [kmppSearch, show (⌊(0 : ℚ) * ((3 : ℕ) : ℚ)⌋).toNat = 0 from by norm_num,
      if_pos (by norm_num), naiveScan]
    norm_num [fwdScan, sumTo]

theorem check_args_ok (tolerance yinyang_t : ℚ) (ss fs cs dev dc : ℕ)
    (sn cn an : Bool) (h1 : 2 ≤ cs) (h2 : cs ≠ 2 ^ 32 - 1) (h3 : fs ≠ 0)
    (h4 : cs ≤ ss) (h5 : dev ≠ 0) (h6 : dev ≤ 2 ^ dc) (h7 : sn = false)
    (h8 : cn = false) (h9 : an = false) (h10 : 0 ≤ tolerance)
    (h11 : tolerance ≤ 1) (h12 : 0 ≤ yinyang_t) (h13 : yinyang_t ≤ 1 / 2) :
    check_args tolerance yinyang_t ss fs cs dev dc sn cn an = .success := by
  rw [check_args, if_neg (not_or.2 ⟨by omega, h2⟩), if_neg h3, if_neg (by omega),
    if_neg h5, if_neg (not_lt.2 h6), if_neg (by simp [h7, h8, h9]),
    if_neg (by rintro (h | h) <;> linarith), if_neg (by rintro (h | h) <;> linarith)]

theorem kmeans_cuda_run (a : Args) (env : Env)
    (hca : check_args a.tolerance a.yinyang_t a.samples_size a.features_size
      a.clusters_size a.device env.deviceCount a.samplesNull a.centroidsNull
      a.assignmentsNull = .success)
    (devs : List ℕ) (hsd : setup_devices a.device env.act = devs)
    (hne : devs ≠ []) :
    kmeans_cuda a env = (finalCode a env devs, some (fullTrace a env devs)) := by
  rw [kmeans_cuda, hca, hsd]
  simp [hne]

theorem kmeans_cuda_trace (a : Args) (env : Env) (r : KMCUDAResult) (t : Trace)
    (h : kmeans_cuda a env = (r, some t)) :
    t = fullTrace a env (setup_devices a.device env.act) ∧
      r = finalCode a env (setup_devices a.device env.act) := by
  rw [kmeans_cuda] at h
  split at h
  · split at h
    · simp at h
    · have h1 := congrArg Prod.fst h
      have h2 := congrArg Prod.snd h
      simp only [Option.some.injEq] at h2
      exact ⟨h2.symm, h1.symm⟩
  · simp at h

/-- C3 (amended): the zero-device-selector check runs after the three shape
checks but before the pointer, tolerance and accelerated-fraction checks:
whenever the selector is 0 and the shapes are valid, `kmeans_cuda` returns
`kmcudaNoSuchDevice` before planning any buffer, regardless of the pointer
and range arguments. -/
theorem device_zero_after_shapes (a : Args) (env : Env) (h0 : a.device = 0)
    (h1 : 2 ≤ a.clusters_size) (h2 : a.clusters_size ≠ 2 ^ 32 - 1)
    (h3 : a.features_size ≠ 0) (h4 : a.clusters_size ≤ a.samples_size) :
    kmeans_cuda a env = (.noSuchDevice, none) := by
  have hca : check_args a.tolerance a.yinyang_t a.samples_size a.features_size
      a.clusters_size a.device env.deviceCount a.samplesNull a.centroidsNull
      a.assignmentsNull = .noSuchDevice := by
    rw [check_args, if_neg (not_or.2 ⟨by omega, h2⟩), if_neg h3,
      if_neg (by omega), if_pos h0]
  rw [kmeans_cuda, hca]
  simp

/-- C3 witness: selector 0 with valid shapes but null pointers and
out-of-range tolerance still reports `kmcudaNoSuchDevice`. -/
theorem device_zero_after_shapes_w :
    aC3.device = 0 ∧ kmeans_cuda aC3 baseEnv = (.noSuchDevice, none) :=
  ⟨rfl, device_zero_after_shapes aC3 baseEnv rfl (by norm_num [aC3, baseArgs])
    (by norm_num [aC3, baseArgs]) (by norm_num [aC3, baseArgs])
    (by norm_num [aC3, baseArgs])⟩

/-- C3 counterexample: selector 0 together with `clusters_size = 1` yields
`kmcudaInvalidArguments`, not `kmcudaNoSuchDevice`: the shape checks run
before the zero-selector check. -/
theorem device_zero_not_first_cex :
    aC3c.device = 0 ∧ kmeans_cuda aC3c baseEnv = (.invalidArguments, none) := by
  refine ⟨rfl, ?_⟩
  have hca : check_args aC3c.tolerance aC3c.yinyang_t aC3c.samples_size
      aC3c.features_size aC3c.clusters_size aC3c.device baseEnv.deviceCount
      aC3c.samplesNull aC3c.centroidsNull aC3c.assignmentsNull
      = .invalidArguments := by
    rw [check_args, if_pos (Or.inl (by norm_num [aC3c, baseArgs]))]
  rw [kmeans_cuda, hca]
  simp

/-- C7 (amended): a violated shape rule (clusters, features, samples) always
makes `kmeans_cuda` return `kmcudaInvalidArguments` before any device work;
a violated pointer, tolerance or accelerated-fraction rule does so provided
the device selector itself passes its own checks (nonzero and not above
`2 ^ deviceCount`), which run in between. -/
theorem invalid_args_rejected (a : Args) (env : Env)
    (hviol : a.clusters_size < 2 ∨ a.clusters_size = 2 ^ 32 - 1 ∨
      a.features_size = 0 ∨ a.samples_size < a.clusters_size ∨
      (a.device ≠ 0 ∧ a.device ≤ 2 ^ env.deviceCount ∧
        (a.tolerance < 0 ∨ 1 < a.tolerance ∨ a.yinyang_t < 0 ∨
          1 / 2 < a.yinyang_t ∨ a.samplesNull = true ∨ a.centroidsNull = true ∨
          a.assignmentsNull = true))) :
    kmeans_cuda a env = (.invalidArguments, none) := by
  have hca : check_args a.tolerance a.yinyang_t a.samples_size a.features_size
      a.clusters_size a.device env.deviceCount a.samplesNull a.centroidsNull
      a.assignmentsNull = .invalidArguments := by
    rw [check_args]
    rcases hviol with h | h | h | h | ⟨h1, h2, h3⟩
    · simp [h]
    · simp [h]
    · simp [h]
    · simp [h]
    · rcases h3 with h | h | h | h | h | h | h <;>
        simp [h1, not_lt.2 h2, h] <;> intros <;> linarith
  rw [kmeans_cuda, hca]
  simp

/-- C7 witness: `tolerance = 3/2` with every other argument valid yields
`kmcudaInvalidArguments` (testable property 8 of the spec). -/
theorem invalid_args_rejected_w :
    (1 : ℚ) < aC7.tolerance ∧ kmeans_cuda aC7 baseEnv = (.invalidArguments, none) :=
  ⟨by norm_num [aC7, baseArgs],
    invalid_args_rejected aC7 baseEnv
      (Or.inr (Or.inr (Or.inr (Or.inr
        ⟨by norm_num [aC7, baseArgs], by norm_num [aC7, baseArgs, baseEnv],
          Or.inr (Or.inl (by norm_num [aC7, baseArgs]))⟩))))⟩

/-- C7 counterexample: `tolerance = 3/2` violates the tolerance rule, yet
with a zero device selector the call returns `kmcudaNoSuchDevice`, not
`kmcudaInvalidArguments`: not every rule violation yields
`kmcudaInvalidArguments`. -/
theorem invalid_args_overlap_cex :
    (1 : ℚ) < aC7c.tolerance ∧ kmeans_cuda aC7c baseEnv = (.noSuchDevice, none) := by
  refine ⟨by norm_num [aC7c, baseArgs], ?_⟩
  have hca : check_args aC7c.tolerance aC7c.yinyang_t aC7c.samples_size
      aC7c.features_size aC7c.clusters_size aC7c.device baseEnv.deviceCount
      aC7c.samplesNull aC7c.centroidsNull aC7c.assignmentsNull
      = .noSuchDevice := by
    rw [check_args, if_neg (not_or.2 ⟨by norm_num [aC7c, baseArgs],
      by norm_num [aC7c, baseArgs]⟩), if_neg (by norm_num [aC7c, baseArgs]),
      if_neg (by norm_num [aC7c, baseArgs]), if_pos (by norm_num [aC7c, baseArgs])]
  rw [kmeans_cuda, hca]
  simp

/-- C6 (amended): when the input-location hint is host memory
(`device_ptrs < 0`) every participating device receives an owned sample
buffer of `samples_size * features_size` floats filled by a host-to-device
transfer; when the hint names a device (`device_ptrs >= 0`) the planner
creates exactly one sample-buffer entry aliasing the caller pointer and no
per-device copies for the other participating devices. -/
theorem samples_alias_or_copy (a : Args) (env : Env) (r : KMCUDAResult)
    (t : Trace) (h : kmeans_cuda a env = (r, some t)) :
    (a.device_ptrs < 0 →
      t.samplesBufs =
        List.replicate t.devs.length
          (BufSpec.owned (a.samples_size * a.features_size)) ∧
        t.hostToDeviceCopies = t.devs.length) ∧
    (0 ≤ a.device_ptrs →
      t.samplesBufs = [BufSpec.callerAlias] ∧ t.hostToDeviceCopies = 0) := by
  obtain ⟨rfl, -⟩ := kmeans_cuda_trace a env r t h
  constructor
  · intro hd
    simp [fullTrace, hd]
  · intro hd
    simp [fullTrace, not_lt.2 hd]

/-- C6 witness: with host pointers and one participating device the sample
matrix gets one owned allocation and one host-to-device transfer. -/
theorem samples_alias_or_copy_w :
    (fullTrace baseArgs baseEnv [0]).samplesBufs =
      List.replicate (fullTrace baseArgs baseEnv [0]).devs.length
        (BufSpec.owned (baseArgs.samples_size * baseArgs.features_size)) :=
  ((samples_alias_or_copy baseArgs baseEnv _ _
      (kmeans_cuda_run baseArgs baseEnv
        (check_args_ok _ _ _ _ _ _ _ _ _ _ (by norm_num [baseArgs])
          (by norm_num [baseArgs]) (by norm_num [baseArgs])
          (by norm_num [baseArgs]) (by norm_num [baseArgs])
          (by norm_num [baseArgs, baseEnv]) rfl rfl rfl
          (by norm_num [baseArgs]) (by norm_num [baseArgs])
          (by norm_num [baseArgs]) (by norm_num [baseArgs]))
        [0] (by decide) (by simp))).1
    (by norm_num [baseArgs])).1

/-- C6 counterexample: two participating devices (selector 3) with the input
hint naming device 0 produce a single aliased sample-buffer entry; device 1
gets no owned copy of the sample matrix, contrary to the claimed
alias-or-copy rule. -/
theorem samples_single_alias_cex :
    (kmeans_cuda aC6c baseEnv).2.map (fun t => (t.devs, t.samplesBufs)) =
      some ([0, 1], [BufSpec.callerAlias]) := by
  rw [kmeans_cuda_run aC6c baseEnv
    (check_args_ok _ _ _ _ _ _ _ _ _ _ (by norm_num [aC6c, baseArgs])
      (by norm_num [aC6c, baseArgs]) (by norm_num [aC6c, baseArgs])
      (by norm_num [aC6c, baseArgs]) (by norm_num [aC6c, baseArgs])
      (by norm_num [aC6c, baseArgs, baseEnv]) rfl rfl rfl
      (by norm_num [aC6c, baseArgs]) (by norm_num [aC6c, baseArgs])
      (by norm_num [aC6c, baseArgs]) (by norm_num [aC6c, baseArgs]))
    [0, 1] (by decide) (by simp)]
  simp [fullTrace, aC6c, baseArgs]

/-- C8: once the pipeline reaches the copy-out phase, if some participating
device equals the output hint (its buffers alias the caller pointers) no
transfer happens and the call succeeds; otherwise exactly one transfer of
`clusters_size * features_size` floats and one of `samples_size` indices is
issued from the primary device `devs[0]` (peer copy when the hint is a
device, host copy otherwise), succeeding only when both transfers succeed
and returning `kmcudaMemoryCopyError` when either fails. -/
theorem copy_out_policy (a : Args) (env : Env) (r : KMCUDAResult) (t : Trace)
    (h : kmeans_cuda a env = (r, some t)) (hmem : memOk a env = true)
    (hs : env.setupResult = .success) (hi : env.initResult = .success)
    (hy : env.yyResult = .success) :
    ((∃ dev ∈ t.devs, (dev : ℤ) = a.device_ptrs) →
      t.copyOut = none ∧ r = .success) ∧
    ((∀ dev ∈ t.devs, (dev : ℤ) ≠ a.device_ptrs) →
      t.copyOut = some
        { peer := decide (0 ≤ a.device_ptrs), srcDev := t.devs.headD 0,
          centroidFloats := a.clusters_size * a.features_size,
          assignmentWords := a.samples_size } ∧
      (env.copyCentroidsOk = true → env.copyAssignmentsOk = true →
        r = .success) ∧
      (env.copyCentroidsOk = false ∨ env.copyAssignmentsOk = false →
        r = .memoryCopyError)) := by
  obtain ⟨rfl, rfl⟩ := kmeans_cuda_trace a env r t h
  constructor
  · intro hex
    simp only [fullTrace] at hex
    have hmc : mustCopy (setup_devices a.device env.act) a.device_ptrs = false := by
      obtain ⟨dev, hdev, heq⟩ := hex
      simp only [mustCopy, Bool.not_eq_false', List.any_eq_true,
        decide_eq_true_eq]
      exact ⟨dev, hdev, heq⟩
    constructor
    · simp [fullTrace, hmc]
    · simp [finalCode, hmem, hs, hi, hy, hmc]
  · intro hall
    simp only [fullTrace] at hall
    have hmc : mustCopy (setup_devices a.device env.act) a.device_ptrs = true := by
      simp only [mustCopy, Bool.not_eq_true', List.any_eq_false,
        decide_eq_true_eq]
      exact hall
    refine ⟨?_, ?_, ?_⟩
    · simp [fullTrace, hmem, hs, hi, hy, hmc]
    · intro hc ha
      simp [finalCode, hmem, hs, hi, hy, hmc, hc, ha]
    · rintro (hc | hc)
      · simp [finalCode, hmem, hs, hi, hy, hmc, hc]
      · cases hb : env.copyCentroidsOk <;>
          simp [finalCode, hmem, hs, hi, hy, hmc, hb, hc]

theorem baseArgs_check :
    check_args baseArgs.tolerance baseArgs.yinyang_t baseArgs.samples_size
      baseArgs.features_size baseArgs.clusters_size baseArgs.device
      baseEnv.deviceCount baseArgs.samplesNull baseArgs.centroidsNull
      baseArgs.assignmentsNull = .success :=
  check_args_ok _ _ _ _ _ _ _ _ _ _ (by norm_num [baseArgs])
    (by norm_num [baseArgs]) (by norm_num [baseArgs]) (by norm_num [baseArgs])
    (by norm_num [baseArgs]) (by norm_num [baseArgs, baseEnv]) rfl rfl rfl
    (by norm_num [baseArgs]) (by norm_num [baseArgs]) (by norm_num [baseArgs])
    (by norm_num [baseArgs])

theorem baseArgs_run :
    kmeans_cuda baseArgs baseEnv =
      (finalCode baseArgs baseEnv [0], some (fullTrace baseArgs baseEnv [0])) :=
  kmeans_cuda_run baseArgs baseEnv baseArgs_check [0] (by decide) (by simp)

/-- C8 witness: host output pointers with one device produce exactly one
copy-out of `clusters_size * features_size` floats and `samples_size`
indices from device 0. -/
theorem copy_out_policy_w :
    (fullTrace baseArgs baseEnv [0]).copyOut = some
      { peer := decide (0 ≤ baseArgs.device_ptrs),
        srcDev := (fullTrace baseArgs baseEnv [0]).devs.headD 0,
        centroidFloats := baseArgs.clusters_size * baseArgs.features_size,
        assignmentWords := baseArgs.samples_size } :=
  ((copy_out_policy baseArgs baseEnv _ _ baseArgs_run (by decide) rfl rfl rfl).2
    (by decide)).1

theorem setup_devices_aux_mem (act : ℕ → Bool) :
    ∀ fuel device base d, device < 2 ^ fuel →
      (d ∈ setup_devices_aux act fuel device base ↔
        (base ≤ d ∧ (device / 2 ^ (d - base)) % 2 = 1 ∧ act d = true)) := by
  intro fuel
  induction fuel with
  | zero =>
    intro device base d hdev
    obtain rfl : device = 0 := by simpa using hdev
    simp [setup_devices_aux, Nat.zero_div]
  | succ fuel ih =>
    intro device base d hdev
    rw [setup_devices_aux]
    by_cases h0 : device = 0
    · subst h0
      simp [Nat.zero_div]
    · rw [if_neg h0]
      have hdev2 : device / 2 < 2 ^ fuel := by
        have hp : (2 : ℕ) ^ (fuel + 1) = 2 * 2 ^ fuel := by ring
        omega
      rw [List.mem_append, ih (device / 2) (base + 1) d hdev2]
      constructor
      · rintro (hmem | ⟨hb, hbit, hact⟩)
        · have hc : (device % 2 = 1 ∧ act base = true) ∧ d = base := by
            by_cases hc1 : device % 2 = 1 ∧ act base = true
            · rw [if_pos hc1] at hmem
              exact ⟨hc1, by simpa using hmem⟩
            · rw [if_neg hc1] at hmem
              simp at hmem
          obtain ⟨⟨hbit, hact⟩, rfl⟩ := hc
          refine ⟨le_rfl, ?_, hact⟩
          simpa using hbit
        · refine ⟨by omega, ?_, hact⟩
          have hk : d - base = (d - (base + 1)) + 1 := by omega
          have heq : device / 2 ^ (d - base) = device / 2 / 2 ^ (d - (base + 1)) := by
            rw [hk, pow_succ, Nat.div_div_eq_div_mul, mul_comm]
          rw [heq]
          exact hbit
      · rintro ⟨hb, hbit, hact⟩
        by_cases hd : d = base
        · subst hd
          left
          have hbit0 : device % 2 = 1 := by simpa using hbit
          rw [if_pos ⟨hbit0, hact⟩]
          simp
        · right
          refine ⟨by omega, ?_, hact⟩
          have hk : d - base = (d - (base + 1)) + 1 := by omega
          have heq : device / 2 / 2 ^ (d - (base + 1)) = device / 2 ^ (d - base) := by
            rw [hk, pow_succ, Nat.div_div_eq_div_mul, mul_comm]
          rw [heq]
          exact hbit

/-- C9: after validation, the resolved device set holds exactly the devices
whose selector bit is set and whose activation succeeds, and when that set
is empty `kmeans_cuda` returns `kmcudaNoSuchDevice` with no buffer planned
(second component `none`). -/
theorem topology_resolution (a : Args) (env : Env) (hdev : a.device < 2 ^ 32)
    (hca : check_args a.tolerance a.yinyang_t a.samples_size a.features_size
      a.clusters_size a.device env.deviceCount a.samplesNull a.centroidsNull
      a.assignmentsNull = .success) :
    (∀ d, d ∈ setup_devices a.device env.act ↔
      ((a.device / 2 ^ d) % 2 = 1 ∧ env.act d = true)) ∧
    (setup_devices a.device env.act = [] →
      kmeans_cuda a env = (.noSuchDevice, none)) := by
  constructor
  · intro d
    rw [setup_devices, setup_devices_aux_mem env.act 32 a.device 0 d hdev]
    simp
  · intro hempty
    rw [kmeans_cuda, hca, hempty]
    simp

/-- C9 witness: selector bit 0 set but activation failing on every device
resolves to the empty device set and `kmcudaNoSuchDevice` with no plan. -/
theorem topology_resolution_w :
    setup_devices baseArgs.device (fun _ => false) = [] ∧
      kmeans_cuda baseArgs { baseEnv with act := fun _ => false } =
        (.noSuchDevice, none) :=
  ⟨by decide,
    (topology_resolution baseArgs { baseEnv with act := fun _ => false }
      (by norm_num [baseArgs])
      (check_args_ok _ _ _ _ _ _ _ _ _ _ (by norm_num [baseArgs])
        (by norm_num [baseArgs]) (by norm_num [baseArgs])
        (by norm_num [baseArgs]) (by norm_num [baseArgs])
        (by norm_num [baseArgs, baseEnv]) rfl rfl rfl
        (by norm_num [baseArgs]) (by norm_num [baseArgs])
        (by norm_num [baseArgs]) (by norm_num [baseArgs]))).2 (by decide)⟩

/-- C10: the yinyang scratch plan is empty whenever `yinyang_groups = 0`,
and with `accelerated_fraction = 0` the computed `yinyang_groups` is 0, no
scratch buffer is planned, and both the setup and the refinement
collaborators receive `yinyang_groups = 0` whenever they are called. -/
theorem yinyang_scratch_gating (a : Args) (env : Env) (r : KMCUDAResult)
    (t : Trace) (h : kmeans_cuda a env = (r, some t)) :
    (t.yinyangGroups = 0 → t.yy = YYPlan.mk [] [] [] [] []) ∧
    (a.yinyang_t = 0 →
      t.yinyangGroups = 0 ∧ (∀ g, t.setupCall = some g → g = 0) ∧
        (∀ g, t.refineCall = some g → g = 0)) := by
  obtain ⟨rfl, -⟩ := kmeans_cuda_trace a env r t h
  constructor
  · intro h0
    simp only [fullTrace] at h0 ⊢
    rw [h0]
    simp [planYY]
  · intro h0
    have hyg : yyGroupsOf a.yinyang_t a.clusters_size = 0 := by
      simp [yyGroupsOf, h0]
    refine ⟨by simp [fullTrace, hyg], ?_, ?_⟩
    · intro g hg
      simp only [fullTrace] at hg
      rw [hyg] at hg
      split at hg
      · simpa using hg.symm
      · simp at hg
    · intro g hg
      simp only [fullTrace] at hg
      rw [hyg] at hg
      split at hg
      · simpa using hg.symm
      · simp at hg

/-- C10 witness: `yinyang_t = 0` gives zero groups, an empty scratch plan
and a refinement call with group count 0. -/
theorem yinyang_scratch_gating_w :
    (fullTrace baseArgs baseEnv [0]).yinyangGroups = 0 ∧
      (fullTrace baseArgs baseEnv [0]).yy = YYPlan.mk [] [] [] [] [] ∧
      ∀ g, (fullTrace baseArgs baseEnv [0]).refineCall = some g → g = 0 := by
  have h := yinyang_scratch_gating baseArgs baseEnv _ _ baseArgs_run
  have h2 := h.2 rfl
  exact ⟨h2.1, h.1 h2.1, h2.2.2⟩

/-- C2: at `samples_size = 2^20`, `features_size = 2^15`,
`clusters_size = 2^18`, `yinyang_groups = 2^17` (reachable with
`yinyang_t = 1/2`) the product `yinyang_groups * features_size` equals
`2^32` and wraps to 0 in the 32-bit comparison of src/kmcuda.cpp line 224,
so the group-centroid buffer is aliased onto the passed-flags buffer even
though the true geometry condition of the claim fails. -/
theorem planYY_overflow_alias :
    (planYY 1048576 32768 262144 131072 1).centroidsYY = [BufSpec.passedAlias] ∧
      ¬ (131072 * 32768 + (262144 + 131072) ≤ 1048576) := by
  constructor
  · decide
  · decide
